import Mathlib

namespace JupyterK8s

/-!
Verification development for the jupyter-k8s workspace operator.

This file gives a shallow embedding, in Lean 4, of the parts of the Go
source that the verified properties are about:

- the deployment mutation logic that injects access-strategy environment
  variables, volumes, volume mounts and sidecar containers
  (`internal/controller/deployment_builder_access.go`);
- the idle-activity probe and its HTTP status-code policy
  (`internal/controller/idle_checker.go`);
- the SSM remote-access provisioner: registration-state handling,
  restart detection, cleanup and status bookkeeping (the `aws` package);
- the reconcile state machine (`internal/controller/state_machine.go`).

Go machine integers are embedded as `Int` (restart counters are `int32`,
durations are `int64` nanoseconds; none of the verified code paths
overflow-wrap, and no arithmetic here depends on wraparound).  Fallible Go
functions are embedded as `Except`/`Option`-returning Lean functions.
Calls to collaborators (Kubernetes client, SSM broker, pod exec) are
embedded by threading an explicit environment of call outcomes and by
recording each outgoing call in a trace list, so that ordering and
absence-of-call properties can be stated.  Components whose implementation
is not part of the analysed sources (ResourceManager, StatusManager,
TemplateResolver, the requeue-delay constants) are modelled from the
specification and are marked `Modelled from the spec:` in their doc
comments.
-/

/-! ## Small string helpers (models of Go `strings` library functions) -/

/-- Model of Go `strings.HasPrefix` on character lists: `listStartsWith p s`
is true when `p` is an initial segment of `s`. -/
def listStartsWith : List Char → List Char → Bool
  | [], _ => true
  | _ :: _, [] => false
  | p :: ps, c :: cs => p = c && listStartsWith ps cs

/-- Model of Go `strings.Contains` on character lists: true when `pat`
occurs as a contiguous sublist of `s`. -/
def listContainsSub (pat s : List Char) : Bool :=
  s.tails.any (fun t => listStartsWith pat t)

/-- Model of Go `strings.Split(s, "\n")`: splits a character list at every
newline character, keeping empty segments. -/
def splitNL : List Char → List (List Char)
  | [] => [[]]
  | c :: rest =>
    match splitNL rest with
    | [] => [[c]]
    | h :: t => if c = '\n' then [] :: h :: t else (c :: h) :: t

/-! ## Section 1: DeploymentAccessStrategyApplier
(`internal/controller/deployment_builder_access.go`)

The Kubernetes API types are embedded with exactly the fields the applier
reads or writes. -/

/-- One entry of a container's `Env` list (`corev1.EnvVar`). -/
structure EnvVar where
  name : String
  value : String
deriving DecidableEq, Repr

/-- One entry of a container's `VolumeMounts` list (`corev1.VolumeMount`). -/
structure VolumeMount where
  name : String
  mountPath : String
deriving DecidableEq, Repr

/-- One entry of a pod spec's `Volumes` list (`corev1.Volume`). -/
structure Volume where
  name : String
deriving DecidableEq, Repr

/-- A `corev1.Container`, restricted to the fields the applier touches. -/
structure Container where
  name : String
  env : List EnvVar
  volumeMounts : List VolumeMount
deriving DecidableEq, Repr

/-- An `appsv1.Deployment`, restricted to its pod template spec fields the
applier touches (`Spec.Template.Spec.Volumes` and `.Containers`). -/
structure Deployment where
  volumes : List Volume
  containers : List Container
deriving DecidableEq, Repr

/-- One entry of `AccessStrategy.Spec.MergeEnv`: a named environment
variable whose value is a text template. -/
structure EnvTemplate where
  name : String
  valueTemplate : String
deriving DecidableEq, Repr

/-- `DeploymentSpecModifications.PodSpec`: extra volumes and extra
containers declared by the access strategy. -/
structure PodSpecMods where
  volumes : List Volume
  additionalContainers : List Container
deriving DecidableEq, Repr

/-- `DeploymentSpecModifications.PrimaryContainer`: extra volume mounts for
the first container. -/
structure PrimaryContainerMods where
  volumeMounts : List VolumeMount
deriving DecidableEq, Repr

/-- `WorkspaceAccessStrategySpec.DeploymentSpecModifications`. -/
structure DeploymentSpecModifications where
  podSpec : Option PodSpecMods
  primaryContainer : Option PrimaryContainerMods
deriving DecidableEq, Repr

/-- A `WorkspaceAccessStrategy`, restricted to the fields the applier
reads. -/
structure AccessStrategy where
  name : String
  mergeEnv : List EnvTemplate
  deploymentSpecModifications : Option DeploymentSpecModifications
deriving DecidableEq, Repr

/-- Embedding of `resolveAccessStrategyEnv`: each `MergeEnv` template is
interpolated over the `(Workspace, AccessStrategy)` data.  The Go
`text/template` engine is an external library; its action on one template
string is abstracted as the function parameter `interp`, which already has
the workspace and strategy data baked in. -/
def resolveAccessStrategyEnv (interp : String → String) (a : AccessStrategy) :
    List EnvVar :=
  a.mergeEnv.map (fun t => { name := t.name, value := interp t.valueTemplate })

/-- The inner merge loop of `addAccessStrategyEnvToContainer`: overwrite
the value of the first existing variable with this name, else append. -/
def setEnvVar : List EnvVar → EnvVar → List EnvVar
  | [], nv => [nv]
  | e :: rest, nv =>
    if e.name = nv.name then { e with value := nv.value } :: rest
    else e :: setEnvVar rest nv

/-- Embedding of `addAccessStrategyEnvToContainer` (the non-nil-container
path): resolve the strategy env and merge each variable in declaration
order into the container's env list. -/
def addAccessStrategyEnvToContainer (interp : String → String)
    (c : Container) (a : AccessStrategy) : Container :=
  { c with env := (resolveAccessStrategyEnv interp a).foldl setEnvVar c.env }

/-- Outcome of `ApplyAccessStrategyToDeployment`: a Go `error` return, a
successful return with the mutated deployment, or a runtime panic
(nil-pointer dereference or out-of-range index). -/
inductive ApplyResult where
  | ok (d : Deployment)
  | err (msg : String)
  | panicked
deriving DecidableEq, Repr

/-- Embedding of `applyDeploymentSpecModifications`: appends declared
volumes to the pod spec, declared volume mounts to the first container,
and declared additional containers, in that order, with no deduplication.
Indexing `Containers[0]` while the container list is empty is a panic. -/
def applyDeploymentSpecModifications (d : Deployment) (a : AccessStrategy) :
    ApplyResult :=
  match a.deploymentSpecModifications with
  | none => .ok d
  | some mods =>
    let d1 :=
      match mods.podSpec with
      | some ps =>
        if ps.volumes.length > 0 then { d with volumes := d.volumes ++ ps.volumes } else d
      | none => d
    let afterMounts : ApplyResult :=
      match mods.primaryContainer with
      | some pc =>
        if pc.volumeMounts.length > 0 then
          match d1.containers with
          | [] => .panicked
          | c0 :: rest =>
            .ok { d1 with containers :=
              { c0 with volumeMounts := c0.volumeMounts ++ pc.volumeMounts } :: rest }
        else .ok d1
      | none => .ok d1
    match afterMounts with
    | .ok d2 =>
      match mods.podSpec with
      | some ps =>
        if ps.additionalContainers.length > 0 then
          .ok { d2 with containers := d2.containers ++ ps.additionalContainers }
        else .ok d2
      | none => .ok d2
    | other => other

/-- Embedding of `ApplyAccessStrategyToDeployment`.  The nil checks follow
the source order: a nil deployment returns an error built from
`accessStrategy.Name` (which itself panics when the strategy is also nil);
a nil strategy is a no-op; otherwise `Containers[0]` is taken
unconditionally, so an empty container list is a panic. -/
def ApplyAccessStrategyToDeployment (interp : String → String)
    (deployment : Option Deployment) (accessStrategy : Option AccessStrategy) :
    ApplyResult :=
  match deployment with
  | none =>
    match accessStrategy with
    | none => .panicked
    | some a => .err ("cannot apply AccessStrategy '" ++ a.name ++ "' to nil deployment")
  | some d =>
    match accessStrategy with
    | none => .ok d
    | some a =>
      match d.containers with
      | [] => .panicked
      | c0 :: rest =>
        let c0m := addAccessStrategyEnvToContainer interp c0 a
        applyDeploymentSpecModifications { d with containers := c0m :: rest } a

/-- First-match lookup in an env list (the semantics under which a
container "carries" a variable's value). -/
def envLookup (env : List EnvVar) (n : String) : Option String :=
  match env with
  | [] => none
  | e :: rest => if e.name = n then some e.value else envLookup rest n

/-- Volumes declared by the strategy's deployment-spec modifications. -/
def modsVolumes (a : AccessStrategy) : List Volume :=
  match a.deploymentSpecModifications with
  | some mods => match mods.podSpec with
    | some ps => ps.volumes
    | none => []
  | none => []

/-- Primary-container volume mounts declared by the strategy. -/
def modsMounts (a : AccessStrategy) : List VolumeMount :=
  match a.deploymentSpecModifications with
  | some mods => match mods.primaryContainer with
    | some pc => pc.volumeMounts
    | none => []
  | none => []

/-- Additional containers declared by the strategy. -/
def modsContainers (a : AccessStrategy) : List Container :=
  match a.deploymentSpecModifications with
  | some mods => match mods.podSpec with
    | some ps => ps.additionalContainers
    | none => []
  | none => []

/-! ### Lemmas about the env merge -/

/-- Concrete primary container used by the C9 witness: env `A=old, B=keep`,
one existing mount. -/
def c9Primary : Container :=
  { name := "main",
    env := [{ name := "A", value := "old" }, { name := "B", value := "keep" }],
    volumeMounts := [{ name := "v0", mountPath := "/v0" }] }

/-- Concrete deployment used by the C9 witness. -/
def c9Deployment : Deployment :=
  { volumes := [{ name := "v0" }], containers := [c9Primary] }

/-- Concrete access strategy used by the C9 witness: declares env `A` and
`C`, one extra volume, one extra primary mount and one sidecar. -/
def c9Strategy : AccessStrategy :=
  { name := "ssm",
    mergeEnv := [{ name := "A", valueTemplate := "x" },
                 { name := "C", valueTemplate := "y" }],
    deploymentSpecModifications := some
      { podSpec := some
          { volumes := [{ name := "shared" }],
            additionalContainers := [{ name := "sidecar", env := [], volumeMounts := [] }] },
        primaryContainer := some
          { volumeMounts := [{ name := "shared", mountPath := "/shared" }] } } }

/-! ## Section 2: IdleActivityMonitor (`internal/controller/idle_checker.go`)

`CheckWorkspaceIdle` execs a single `curl` in the workspace pod which
prints the response body followed by a line `HTTP Status: <code>`, parses
that output, applies the status-code policy, and parses the 200 body as
JSON.  The embedding covers the probe-processing core of the function,
i.e. everything downstream of pod lookup (`findWorkspacePod` succeeded)
and of the clientset availability check; the exec outcome is the explicit
input.  Go errors are embedded as an inductive error type whose
constructors carry exactly the data interpolated into the corresponding
`fmt.Errorf` message; `fmt.Errorf("...: %w", err)` wrapping by the caller
preserves the inner error and is not re-modelled. -/

/-- Error taxonomy of `CheckWorkspaceIdle`/`callIdleEndpoint`, one
constructor per `fmt.Errorf` site. -/
inductive IdleCheckError where
  /-- "curl execution failed: %w" — the remote exec itself failed. -/
  | curlExecutionFailed (e : String)
  /-- "connection refused - app starting" — curl reported status 000. -/
  | connectionRefusedAppStarting
  /-- "endpoint not found - wrong path" — status 404. -/
  | endpointNotFoundWrongPath
  /-- "unexpected HTTP status: %s, response: %s" — any other non-200
  status; carries the status code and the response body. -/
  | unexpectedStatus (statusCode body : List Char)
  /-- "jupyter server not ready: connection refused" — body contained
  "Connection refused" or "error". -/
  | jupyterServerNotReady
  /-- "failed to parse idle response: %w" — JSON unmarshal failed. -/
  | parseIdleResponseFailed (body : List Char)
  /-- "invalid idle response: empty lastActiveTimestamp". -/
  | emptyLastActiveTimestamp
deriving DecidableEq, Repr

/-- The marker line prepended to the status code by the curl `-w` format. -/
def httpStatusMark : List Char := "HTTP Status: ".data

/-- One step of the output-parsing loop in `callIdleEndpoint`: a line with
the status marker captures the status code; other non-empty lines are
accumulated into the response body, joined by newlines. -/
def stepCurlLine (acc : List Char × List Char) (line : List Char) :
    List Char × List Char :=
  if listStartsWith httpStatusMark line then (acc.1, line.drop httpStatusMark.length)
  else if line = [] then acc
  else if acc.1 = [] then (line, acc.2)
  else (acc.1 ++ '\n' :: line, acc.2)

/-- Embedding of the output-parsing loop of `callIdleEndpoint`:
returns (response body, status code). -/
def parseCurlOutput (output : List Char) : List Char × List Char :=
  (splitNL output).foldl stepCurlLine ([], [])

/-- Embedding of `callIdleEndpoint` downstream of command construction:
takes the exec outcome, splits body from status code, and applies the
status-code switch. -/
def callIdleEndpoint (execResult : Except String (List Char)) :
    Except IdleCheckError (List Char) :=
  match execResult with
  | .error e => .error (.curlExecutionFailed e)
  | .ok output =>
    let bodyCode := parseCurlOutput output
    if bodyCode.2 = "000".data then .error .connectionRefusedAppStarting
    else if bodyCode.2 = "404".data then .error .endpointNotFoundWrongPath
    else if bodyCode.2 = "200".data then .ok bodyCode.1
    else .error (.unexpectedStatus bodyCode.2 bodyCode.1)

/-- Model of `encoding/json.Unmarshal` into `IdleResponse` (single field
`lastActiveTimestamp`), restricted to the JSON object shapes exercised
here: the empty object yields the zero value (an empty timestamp, the
missing-field case), and an object with exactly the `lastActiveTimestamp`
string field yields that field's characters.  Anything else is an
unmarshal error. -/
def parseIdleJSON (body : List Char) : Option (List Char) :=
  if body = "\x7b\x7d".data then some []
  else if listStartsWith "\x7b\"lastActiveTimestamp\":\"".data body
      && listStartsWith "\x7d\"".data body.reverse
      && decide ("\x7b\"lastActiveTimestamp\":\"".data.length + 2 ≤ body.length) then
    some ((body.drop "\x7b\"lastActiveTimestamp\":\"".data.length).dropLast.dropLast)
  else none

/-- Embedding of `CheckWorkspaceIdle` downstream of pod lookup: run the
probe, reject outputs that look like a refused connection, parse the JSON
body and validate the timestamp field.  Every failure is an `Except.error`
value — the embedding is a total function, mirroring that the Go function
returns all failures as `error` and never panics. -/
def CheckWorkspaceIdle (execResult : Except String (List Char)) :
    Except IdleCheckError (List Char) :=
  match callIdleEndpoint execResult with
  | .error e => .error e
  | .ok output =>
    if listContainsSub "Connection refused".data output
        || listContainsSub "error".data output then
      .error .jupyterServerNotReady
    else
      match parseIdleJSON output with
      | none => .error (.parseIdleResponseFailed output)
      | some ts => if ts = [] then .error .emptyLastActiveTimestamp else .ok ts

/-- Concrete good probe body used by the C4 witness. -/
def c4GoodBody : List Char :=
  "\x7b\"lastActiveTimestamp\":\"2024-01-01T00:00:00Z\"\x7d".data

/-- Concrete empty-timestamp probe body used by the C4 witness. -/
def c4EmptyBody : List Char := "\x7b\"lastActiveTimestamp\":\"\"\x7d".data

/-- Builds the trimmed curl output for a body and a status code, as
produced by the `-w "\nHTTP Status: %\x7bhttp_code\x7d\n"` format after
`strings.TrimSpace`. -/
def mkProbeOutput (body code : List Char) : List Char :=
  body ++ '\n' :: (httpStatusMark ++ code)

/-! ## Section 3: RemoteAccessProvisioner (`aws` package, `SSMRemoteAccessStrategy`)

`SetupContainers` and its helpers interact with the pod (exec) and the
SSM broker through the injected interfaces.  The embedding threads an
explicit environment `SSMEnv` holding each collaborator call's outcome and
the pod facts the code reads, and returns alongside the Go result a trace
of the external calls made, in order, so that absence-of-call and
ordering properties can be stated.  The bounded random jitter sleep makes
no external call and does not appear in the trace. -/

/-- The persisted registration state (`RegistrationState` in Go).  The
`setupStartedAt` wall-clock field is written but never read by any
decision, so it is not carried here. -/
structure RegistrationState where
  sidecarRestartCount : Int
  workspaceRestartCount : Int
  setupInProgress : Bool
deriving DecidableEq, Repr

/-- One external call made by the provisioner. -/
inductive SSMCall where
  /-- `readRegistrationState`: exec `cat` of the state file. -/
  | readState
  /-- `writeRegistrationState`: exec writing the state file. -/
  | writeState (st : RegistrationState)
  /-- `ssmClient.CleanupManagedInstancesByPodUID`. -/
  | cleanupManagedInstances
  /-- `ssmClient.CleanupActivationsByPodUID`. -/
  | cleanupActivations
  /-- `ssmClient.CreateActivation`. -/
  | createActivation
  /-- `addResourceToStatus` upsert of the given resource type. -/
  | statusUpsert (resourceType : String)
  /-- exec of the SSM registration script in the sidecar. -/
  | registrationScript
  /-- exec touching the legacy readiness marker file. -/
  | markerFile
  /-- exec starting the remote-access server in the workspace container. -/
  | startServer
deriving DecidableEq, Repr

/-- Outcome of `readRegistrationState`: a valid state file, no state file
(first-time setup), or an unparsable state file (corruption). -/
inductive ReadStateResult where
  | valid (st : RegistrationState)
  | absent
  | corrupt
deriving DecidableEq, Repr

/-- Environment of collaborator-call outcomes and pod facts consumed by
one `SetupContainers` / cleanup invocation. -/
structure SSMEnv where
  /-- Whether `s.ssmClient` is non-nil. -/
  ssmClientAvailable : Bool
  /-- Whether the `ssm-agent-sidecar` container is in Running state. -/
  sidecarRunning : Bool
  /-- Whether the `workspace` container is in Running state. -/
  workspaceRunning : Bool
  /-- Current sidecar restart count from pod status (`int32`). -/
  currentSidecarRestarts : Int
  /-- Current workspace restart count from pod status (`int32`). -/
  currentWorkspaceRestarts : Int
  /-- Outcome of reading the persisted registration state. -/
  readState : ReadStateResult
  /-- Error from `CleanupManagedInstancesByPodUID`, if any. -/
  cleanupInstancesErr : Option String
  /-- Error from `CleanupActivationsByPodUID`, if any. -/
  cleanupActivationsErr : Option String
  /-- `SSM_MANAGED_NODE_ROLE` from the strategy controller config
  (`none` for missing or empty). -/
  iamRole : Option String
  /-- The EKS cluster ARN environment variable (`none` for unset/empty). -/
  eksClusterARN : Option String
  /-- Outcome of `CreateActivation`: (activation code, activation id). -/
  createActivationResult : Except String (String × String)
  /-- Outcome of executing the registration script. -/
  regScriptResult : Except String String
  /-- Result of `extractManagedInstanceID` on the script output
  (the empty string means extraction failed, as in Go). -/
  extractedId : String
  /-- Error from the marker-file exec, if any. -/
  markerErr : Option String
  /-- Error from the remote-access-server exec, if any. -/
  serverStartErr : Option String
  /-- The pod's UID. -/
  podUID : String

/-- Embedding of `CleanupSSMManagedNodes`: with a client, always calls
managed-instance cleanup then activation cleanup; an instance-cleanup
error is logged and swallowed; the result is an error exactly for an
activation-cleanup error. -/
def CleanupSSMManagedNodes (env : SSMEnv) : Except String Unit × List SSMCall :=
  if !env.ssmClientAvailable then (.error "SSM client not available", [])
  else
    match env.cleanupActivationsErr with
    | some e =>
      (.error ("failed to cleanup activations for pod " ++ env.podUID ++ ": " ++ e),
       [.cleanupManagedInstances, .cleanupActivations])
    | none => (.ok (), [.cleanupManagedInstances, .cleanupActivations])

/-- Embedding of `createSSMActivation`: config lookups happen before the
broker call, so a missing role or cluster ARN makes no external call. -/
def createSSMActivation (env : SSMEnv) :
    Except String (String × String) × List SSMCall :=
  if !env.ssmClientAvailable then (.error "SSM client not available", [])
  else
    match env.iamRole with
    | none => (.error "SSM_MANAGED_NODE_ROLE not found in access strategy", [])
    | some _ =>
      match env.eksClusterARN with
      | none => (.error "EKS cluster ARN environment variable is required", [])
      | some _ =>
        match env.createActivationResult with
        | .error e => (.error ("failed to create SSM activation: " ++ e), [.createActivation])
        | .ok v => (.ok v, [.createActivation])

/-- The part of `setupSidecarContainer` after the optional cleanup:
create the activation, record it in status, run the registration script
over stdin, record the extracted managed instance, write the legacy
marker file.  Status-update failures are logged and do not fail setup. -/
def setupSidecarAfterCleanup (env : SSMEnv) : Except String Unit × List SSMCall :=
  let act := createSSMActivation env
  match act.1 with
  | .error e => (.error ("failed to create SSM activation: " ++ e), act.2)
  | .ok _ =>
    let t2 := act.2 ++ [SSMCall.statusUpsert "SSMActivation"]
    match env.regScriptResult with
    | .error e =>
      (.error ("failed to execute SSM registration script: " ++ e),
       t2 ++ [SSMCall.registrationScript])
    | .ok _ =>
      let t3 := t2 ++ [SSMCall.registrationScript]
      if env.extractedId = "" then
        (.error "failed to extract managed instance ID", t3)
      else
        let t4 := t3 ++ [SSMCall.statusUpsert "SSMManagedInstance"]
        match env.markerErr with
        | some e => (.error ("failed to create marker file: " ++ e), t4 ++ [SSMCall.markerFile])
        | none => (.ok (), t4 ++ [SSMCall.markerFile])

/-- Embedding of `setupSidecarContainer`: optional best-effort cleanup of
stale SSM resources (its error is logged and ignored), then the
registration sequence. -/
def setupSidecarContainer (env : SSMEnv) (cleanupNeeded : Bool) :
    Except String Unit × List SSMCall :=
  let cleanTrace := if cleanupNeeded then (CleanupSSMManagedNodes env).2 else []
  let res := setupSidecarAfterCleanup env
  (res.1, cleanTrace ++ res.2)

/-- Embedding of `setupWorkspaceContainer`: a no-op while the workspace
container is not yet Running, else start the remote-access server. -/
def setupWorkspaceContainer (env : SSMEnv) : Except String Unit × List SSMCall :=
  if !env.workspaceRunning then (.ok (), [])
  else
    match env.serverStartErr with
    | some e => (.error ("failed to start remote access server: " ++ e), [.startServer])
    | none => (.ok (), [.startServer])

/-- The in-progress state written before setup work. -/
def inProgressState (env : SSMEnv) : RegistrationState :=
  { sidecarRestartCount := env.currentSidecarRestarts,
    workspaceRestartCount := env.currentWorkspaceRestarts,
    setupInProgress := true }

/-- The final state written after setup work (releases the cooperative
lock). -/
def finalState (env : SSMEnv) : RegistrationState :=
  { sidecarRestartCount := env.currentSidecarRestarts,
    workspaceRestartCount := env.currentWorkspaceRestarts,
    setupInProgress := false }

/-- The tail of `SetupContainers` once the needed work has been decided:
mark in-progress (write failure is logged and does not abort), set up the
sidecar and then the workspace container (the latter only when the former
succeeded), always write the final state, and only then propagate any
setup error. -/
def setupFromDecision (env : SSMEnv) (needSidecar needWorkspace cleanupNeeded : Bool) :
    Except String Unit × List SSMCall :=
  let t0 := [SSMCall.readState, SSMCall.writeState (inProgressState env)]
  let sres := if needSidecar then setupSidecarContainer env cleanupNeeded else (.ok (), [])
  let wres :=
    match sres.1 with
    | .ok _ => if needWorkspace then setupWorkspaceContainer env else (.ok (), [])
    | .error _ => (.ok (), [])
  let result : Except String Unit :=
    match sres.1 with
    | .error e => .error e
    | .ok _ => wres.1
  (result, t0 ++ sres.2 ++ wres.2 ++ [SSMCall.writeState (finalState env)])

/-- Embedding of `SetupContainers`: early exits (no client; sidecar not
Running), the state read, the in-progress suppression, restart detection
against the stored counters, and the setup tail. -/
def SetupContainers (env : SSMEnv) : Except String Unit × List SSMCall :=
  if !env.ssmClientAvailable then (.error "SSM client not available", [])
  else if !env.sidecarRunning then (.ok (), [])
  else
    match env.readState with
    | .valid st =>
      if st.setupInProgress then (.ok (), [SSMCall.readState])
      else
        let sidecarRestarted := decide (st.sidecarRestartCount < env.currentSidecarRestarts)
        let workspaceRestarted := decide (st.workspaceRestartCount < env.currentWorkspaceRestarts)
        if !sidecarRestarted && !workspaceRestarted then (.ok (), [SSMCall.readState])
        else setupFromDecision env sidecarRestarted workspaceRestarted sidecarRestarted
    | .absent => setupFromDecision env true true false
    | .corrupt => setupFromDecision env true true true

/-- Whether a call is one of the two stale-registration cleanup calls. -/
def isCleanupCall : SSMCall → Bool
  | .cleanupManagedInstances => true
  | .cleanupActivations => true
  | _ => false

/-- Environment for the C5 witness, in-progress case: stored counts
`{sidecar:2, workspace:1}` with `setupInProgress=true`. -/
def c5EnvInProgress : SSMEnv :=
  { ssmClientAvailable := true, sidecarRunning := true, workspaceRunning := true,
    currentSidecarRestarts := 2, currentWorkspaceRestarts := 1,
    readState := .valid { sidecarRestartCount := 2, workspaceRestartCount := 1,
                          setupInProgress := true },
    cleanupInstancesErr := none, cleanupActivationsErr := none,
    iamRole := some "role", eksClusterARN := some "arn",
    createActivationResult := .ok ("code", "act-1"),
    regScriptResult := .ok "Registration successful - Instance ID: mi-1",
    extractedId := "mi-1", markerErr := none, serverStartErr := none,
    podUID := "uid-1" }

/-- Environment for the C5 witness, unchanged-counts case: stored counts
`{sidecar:2, workspace:1}` equal to the pod's current counts. -/
def c5EnvUnchanged : SSMEnv :=
  { c5EnvInProgress with
    readState := .valid { sidecarRestartCount := 2, workspaceRestartCount := 1,
                          setupInProgress := false } }

/-- Environment for the C6 witness: stored `{sidecar:1}`, current
`{sidecar:2}`, all broker calls succeeding. -/
def c6Env : SSMEnv :=
  { ssmClientAvailable := true, sidecarRunning := true, workspaceRunning := true,
    currentSidecarRestarts := 2, currentWorkspaceRestarts := 0,
    readState := .valid { sidecarRestartCount := 1, workspaceRestartCount := 0,
                          setupInProgress := false },
    cleanupInstancesErr := none, cleanupActivationsErr := none,
    iamRole := some "role", eksClusterARN := some "arn",
    createActivationResult := .ok ("code", "act-1"),
    regScriptResult := .ok "Registration successful - Instance ID: mi-1",
    extractedId := "mi-1", markerErr := none, serverStartErr := none,
    podUID := "uid-1" }

/-- Environment for the C7 witness: instance cleanup fails, activation
cleanup succeeds. -/
def c7Env : SSMEnv :=
  { c5EnvInProgress with cleanupInstancesErr := some "instance cleanup boom" }

/-! ## Section 4: status bookkeeping — `addResourceToStatus`

The function re-fetches the workspace, mutates
`Status.ExternalAccessResources` and issues a status update, under
`retry.RetryOnConflict`: each attempt re-applies the same pure list
mutation to the freshly fetched list.  The embedding below is that pure
mutation on the fetched resource list. -/

/-- `ExternalAccessResourceStatus`: one recorded external resource.  The
Go `Metadata` field is a possibly-nil string map, embedded as an optional
association list. -/
structure ExternalAccessResourceStatus where
  resourceType : String
  provider : String
  resourceID : String
  metadata : Option (List (String × String))
deriving DecidableEq, Repr

/-- First-match lookup in an association list (Go map read; Go map keys
are unique, first match is the match). -/
def metaLookup : List (String × String) → String → Option String
  | [], _ => none
  | (k, v) :: rest, key => if k = key then some v else metaLookup rest key

/-- Go map indexing `r.Metadata[k]` including the nil-map case: a missing
key or a nil map reads as the empty string. -/
def metaGet (r : ExternalAccessResourceStatus) (k : String) : String :=
  match r.metadata with
  | none => ""
  | some m => (metaLookup m k).getD ""

/-- The match condition of the upsert loop in `addResourceToStatus`:
provider literally "aws-ssm", same resource type, non-nil metadata whose
`podUid` equals the new resource's `podUid`. -/
def resourceMatches (r : ExternalAccessResourceStatus) (resType podUID : String) : Bool :=
  r.provider = "aws-ssm" && r.resourceType = resType &&
    r.metadata.isSome && metaGet r "podUid" = podUID

/-- The upsert loop of `addResourceToStatus`: replace the first matching
entry, else append the new resource at the end. -/
def upsertExternalResource :
    List ExternalAccessResourceStatus → ExternalAccessResourceStatus → String →
      List ExternalAccessResourceStatus
  | [], nr, _ => [nr]
  | r :: rest, nr, uid =>
    if resourceMatches r nr.resourceType uid then nr :: rest
    else r :: upsertExternalResource rest nr uid

/-- Embedding of one `addResourceToStatus` attempt applied to the fetched
resource list. -/
def addResourceToStatus (resources : List ExternalAccessResourceStatus)
    (nr : ExternalAccessResourceStatus) : List ExternalAccessResourceStatus :=
  upsertExternalResource resources nr (metaGet nr "podUid")

/-- The upsert key of the spec: (Provider, ResourceType, podUid from
metadata). -/
def resourceKey (r : ExternalAccessResourceStatus) : String × String × String :=
  (r.provider, r.resourceType, metaGet r "podUid")

/-! ## Section 5: StateMachine (`internal/controller/state_machine.go`)

The state machine consumes collaborator interfaces (ResourceManager,
StatusManager, TemplateResolver, event recorder, idle checker).  The
collaborator implementations are not part of the analysed sources; their
call outcomes are threaded through the `SMEnv` environment, and the calls
the state machine makes are recorded in a trace.  Durations are `int64`
nanoseconds as in Go's `time.Duration`. -/

/-- Modelled from the spec: the general-retry requeue delay
(`PollRequeueDelay`): the constant's numeric value is configuration that
is not part of the analysed sources; the spec lists it as a fixed positive
polling delay, distinct from the immediate requeue `0`.  10s in
nanoseconds here. -/
def PollRequeueDelay : Int := 10000000000

/-- Modelled from the spec: the long requeue delay for
unrecoverable-looking configuration errors (`LongRequeueDelay`); value
not in the analysed sources, 10 minutes in nanoseconds here. -/
def LongRequeueDelay : Int := 600000000000

/-- Modelled from the spec: the idle-poll cadence (`IdleCheckInterval`),
default 5 minutes per the spec. -/
def IdleCheckInterval : Int := 300000000000

/-- Modelled from the spec: the default desired status when the spec
field is unset is Running. -/
def DefaultDesiredStatus : String := "Running"

/-- Nanoseconds per minute (`time.Minute`). -/
def nsPerMinute : Int := 60000000000

/-- `Spec.IdleShutdown`: the idle-shutdown configuration read by the
state machine (the probe's HTTP port/path feed only the idle checker). -/
structure IdleShutdownSpec where
  enabled : Bool
  timeoutMinutes : Int
deriving DecidableEq, Repr

/-- `Status.IdleShutdown`: observability fields maintained by the idle
logic.  Times are epoch nanoseconds. -/
structure IdleShutdownStatus where
  lastActivity : Option Int
  lastChecked : Option Int
  enabled : Bool
  timeoutMinutes : Int
deriving DecidableEq, Repr

/-- The Workspace spec fields the state machine reads or writes. -/
structure WorkspaceSpec where
  desiredStatus : String
  templateRef : Option String
  idleShutdown : Option IdleShutdownSpec
deriving DecidableEq, Repr

/-- The Workspace status fields the state machine reads or writes. -/
structure WorkspaceStatus where
  deploymentName : String
  serviceName : String
  idleShutdown : Option IdleShutdownStatus
  externalAccessResources : List ExternalAccessResourceStatus
deriving DecidableEq, Repr

/-- A Workspace object. -/
structure Workspace where
  name : String
  namespaceName : String
  spec : WorkspaceSpec
  status : WorkspaceStatus
deriving DecidableEq, Repr

/-- The status written through the StatusManager by one reconcile step. -/
inductive StatusPhase where
  | errorStatus (reason msg : String)
  | stopping (computeStopped serviceStopped accessResourcesStopped : Bool)
  | stopped
  | invalid (violations : Nat)
  | starting (computeReady serviceReady accessResourcesReady : Bool)
  | running
deriving DecidableEq, Repr

/-- One collaborator call made by the state machine. -/
inductive SMCall where
  /-- Modelled from the spec: a deletion request for recorded external
  access resources (Stopped path). -/
  | accessCleanupRequest
  /-- The read inside `EnsureDeploymentDeleted` (existence check). -/
  | getDeployment
  /-- The deletion request inside `EnsureDeploymentDeleted`. -/
  | deleteDeployment
  /-- The read inside `EnsureServiceDeleted` (existence check). -/
  | getService
  /-- The deletion request inside `EnsureServiceDeleted`. -/
  | deleteService
  /-- `EnsurePVCExists` (create-if-absent). -/
  | ensurePVC
  /-- `EnsureDeploymentExists` (create-if-absent). -/
  | ensureDeployment
  /-- `EnsureServiceExists` (create-if-absent). -/
  | ensureService
  /-- `TemplateResolver.ValidateAndResolveTemplate`. -/
  | validateTemplate
  /-- `ReconcileAccessForDesiredRunningStatus` (access provisioning). -/
  | accessProvisionRequest
  /-- `recorder.Event(workspace, etype, reason, msg)`. -/
  | emitEvent (etype reason msg : String)
  /-- A StatusManager status write. -/
  | setStatus (phase : StatusPhase)
  /-- `idleChecker.CheckWorkspaceIdle`. -/
  | idleProbe
  /-- `client.Update` persisting the mutated Spec. -/
  | specUpdate
deriving DecidableEq, Repr

/-- Cluster-side presence of a deployment or service, as observed by an
ensure-deleted call. -/
inductive ResourcePresence where
  | present
  | deleting
  | absent
deriving DecidableEq, Repr

/-- Outcome of `ValidateAndResolveTemplate`: a system error, a policy
violation with a violation count, or success. -/
inductive TemplateValidationOutcome where
  | systemError (msg : String)
  | invalid (violations : Nat)
  | valid
deriving DecidableEq, Repr

/-- Environment of collaborator-call outcomes consumed by one reconcile
tick. -/
structure SMEnv where
  /-- Stopped path: error from the access-resource cleanup request, if
  it makes one. -/
  accessCleanupErr : Option String
  /-- Error fetching the deployment in `EnsureDeploymentDeleted`. -/
  deploymentEnsureDeletedErr : Option String
  /-- Error fetching the service in `EnsureServiceDeleted`. -/
  serviceEnsureDeletedErr : Option String
  /-- Observed deployment presence. -/
  deploymentPresence : ResourcePresence
  /-- Observed service presence. -/
  servicePresence : ResourcePresence
  /-- Running path: template validation outcome. -/
  validation : TemplateValidationOutcome
  /-- Error from `EnsurePVCExists`. -/
  pvcErr : Option String
  /-- Error from `EnsureDeploymentExists`. -/
  deploymentEnsureErr : Option String
  /-- Error from `EnsureServiceExists`. -/
  serviceEnsureErr : Option String
  /-- `IsDeploymentAvailable` on the ensured deployment. -/
  deploymentAvailable : Bool
  /-- `IsServiceAvailable` on the ensured service. -/
  serviceAvailable : Bool
  /-- Error from `ReconcileAccessForDesiredRunningStatus`. -/
  accessRunningErr : Option String
  /-- Name of the ensured deployment. -/
  deploymentName : String
  /-- Name of the ensured service. -/
  serviceName : String
  /-- Error from StatusManager updates of non-error phases (Stopping,
  Stopped, Starting, Running); `UpdateErrorStatus` and `SetInvalid`
  failures are only logged by the code and need no outcome here. -/
  statusUpdateErr : Option String
  /-- Wall-clock now, epoch nanoseconds. -/
  now : Int
  /-- Combined outcome of `CheckWorkspaceIdle` plus the RFC3339 parse of
  its timestamp, as epoch nanoseconds. -/
  probeResult : Except String Int
  /-- Error from `client.Update` persisting the spec. -/
  specUpdateErr : Option String

/-- Result of one reconcile tick: the `ctrl.Result` requeue delay (`0`
both for `ctrl.Result\x7b\x7d` and an explicit immediate requeue), the
returned error, the in-memory workspace after mutation, and the trace of
collaborator calls. -/
structure ReconcileOutcome where
  requeueAfter : Int
  error : Option String
  workspace : Workspace
  trace : List SMCall
deriving DecidableEq, Repr

/-- Missing-or-deleting check on an observed resource
(`IsDeploymentMissingOrDeleting` / `IsServiceMissingOrDeleting`): true
for a fully deleted resource and for one with deletion in progress. -/
def IsMissingOrDeleting : ResourcePresence → Bool
  | .present => false
  | .deleting => true
  | .absent => true

/-- Modelled from the spec: `EnsureDeploymentDeleted` — a non-blocking
deletion request: fetch the deployment (existence check); when present
and not already terminating, issue the delete request; return the
observed object for the missing-or-deleting check. -/
def ensureDeploymentDeleted (env : SMEnv) : Except String ResourcePresence × List SMCall :=
  match env.deploymentEnsureDeletedErr with
  | some e => (.error e, [SMCall.getDeployment])
  | none =>
    match env.deploymentPresence with
    | .present => (.ok .present, [SMCall.getDeployment, SMCall.deleteDeployment])
    | .deleting => (.ok .deleting, [SMCall.getDeployment])
    | .absent => (.ok .absent, [SMCall.getDeployment])

/-- Modelled from the spec: `EnsureServiceDeleted`, symmetric to
`ensureDeploymentDeleted`. -/
def ensureServiceDeleted (env : SMEnv) : Except String ResourcePresence × List SMCall :=
  match env.serviceEnsureDeletedErr with
  | some e => (.error e, [SMCall.getService])
  | none =>
    match env.servicePresence with
    | .present => (.ok .present, [SMCall.getService, SMCall.deleteService])
    | .deleting => (.ok .deleting, [SMCall.getService])
    | .absent => (.ok .absent, [SMCall.getService])

/-- Modelled from the spec: `AreAccessResourcesDeleted` — whether the
workspace no longer records any external access resources. -/
def AreAccessResourcesDeleted (w : Workspace) : Bool :=
  w.status.externalAccessResources.isEmpty

/-- Modelled from the spec: `ReconcileAccessForDesiredStoppedStatus` —
requests deletion of recorded external access resources; with none
recorded there is nothing to request and no call is made. -/
def reconcileAccessForDesiredStoppedStatus (w : Workspace) (env : SMEnv) :
    Option String × List SMCall :=
  if w.status.externalAccessResources.isEmpty then (none, [])
  else (env.accessCleanupErr, [SMCall.accessCleanupRequest])

/-- Embedding of `reconcileDesiredStoppedStatus`: request access cleanup
(continuing on failure), ensure deployment and service deletion, then
branch on the missing-or-deleting checks exactly as the source does. -/
def reconcileDesiredStoppedStatus (w : Workspace) (env : SMEnv) : ReconcileOutcome :=
  let access := reconcileAccessForDesiredStoppedStatus w env
  let dRes := ensureDeploymentDeleted env
  match dRes.1 with
  | .error e =>
    { requeueAfter := PollRequeueDelay,
      error := some ("failed to get deployment: " ++ e), workspace := w,
      trace := access.2 ++ dRes.2 ++
        [SMCall.setStatus (.errorStatus "DeploymentError" ("failed to get deployment: " ++ e))] }
  | .ok dp =>
    let sRes := ensureServiceDeleted env
    match sRes.1 with
    | .error e =>
      { requeueAfter := PollRequeueDelay,
        error := some ("failed to get service: " ++ e), workspace := w,
        trace := access.2 ++ dRes.2 ++ sRes.2 ++
          [SMCall.setStatus (.errorStatus "ServiceError" ("failed to get service: " ++ e))] }
    | .ok sp =>
      let deploymentDeleted := IsMissingOrDeleting dp
      let serviceDeleted := IsMissingOrDeleting sp
      let accessResourcesDeleted := AreAccessResourcesDeleted w
      let base := access.2 ++ dRes.2 ++ sRes.2
      if deploymentDeleted && serviceDeleted then
        match access.1 with
        | some e =>
          { requeueAfter := PollRequeueDelay, error := some e, workspace := w,
            trace := base ++ [SMCall.setStatus (.errorStatus "ServiceError" e)] }
        | none =>
          if !accessResourcesDeleted then
            { requeueAfter := PollRequeueDelay, error := env.statusUpdateErr, workspace := w,
              trace := base ++ [SMCall.setStatus
                (.stopping deploymentDeleted serviceDeleted accessResourcesDeleted)] }
          else
            { requeueAfter :=
                match env.statusUpdateErr with
                | some _ => PollRequeueDelay
                | none => 0,
              error := env.statusUpdateErr, workspace := w,
              trace := base ++
                [SMCall.emitEvent "Normal" "WorkspaceStopped" "Workspace has been stopped",
                 SMCall.setStatus .stopped] }
      else if deploymentDeleted || serviceDeleted then
        { requeueAfter := PollRequeueDelay, error := env.statusUpdateErr, workspace := w,
          trace := base ++ [SMCall.setStatus
            (.stopping deploymentDeleted serviceDeleted accessResourcesDeleted)] }
      else
        { requeueAfter := PollRequeueDelay,
          error := some "unexpected state: both deployment and service should be in deletion process",
          workspace := w,
          trace := base ++ [SMCall.setStatus (.errorStatus "DeploymentError"
            "unexpected state: both deployment and service should be in deletion process")] }

/-- Result of `handleTemplateValidation`: whether reconciliation should
continue, the returned error, and the calls made. -/
structure TemplateValidationResult where
  shouldContinue : Bool
  error : Option String
  trace : List SMCall
deriving DecidableEq, Repr

/-- Embedding of `handleTemplateValidation`: no template reference means
continue with defaults; a system validation error writes an Error status
and stops with the error; an invalid result emits the warning event with
the violation count, sets the Invalid status and stops without error; a
valid result emits the Validated event and continues. -/
def handleTemplateValidation (w : Workspace) (env : SMEnv) : TemplateValidationResult :=
  match w.spec.templateRef with
  | none => { shouldContinue := true, error := none, trace := [] }
  | some templateName =>
    match env.validation with
    | .systemError e =>
      { shouldContinue := false, error := some e,
        trace := [SMCall.validateTemplate,
          SMCall.setStatus (.errorStatus "DeploymentError" e)] }
    | .invalid n =>
      { shouldContinue := false, error := none,
        trace := [SMCall.validateTemplate,
          SMCall.emitEvent "Warning" "ValidationFailed"
            ("Validation failed for " ++ templateName ++ " with " ++ toString n ++ " violations"),
          SMCall.setStatus (.invalid n)] }
    | .valid =>
      { shouldContinue := true, error := none,
        trace := [SMCall.validateTemplate,
          SMCall.emitEvent "Normal" "Validated" ("Validation passed for " ++ templateName)] }

/-- Embedding of `shouldCheckIdleNow`: check when never checked, or when
the idle-check interval has elapsed since the last check. -/
def shouldCheckIdleNow (w : Workspace) (now : Int) : Bool :=
  match w.status.idleShutdown with
  | none => true
  | some st =>
    match st.lastChecked with
    | none => true
    | some lc => decide (IdleCheckInterval ≤ now - lc)

/-- The spec's idle timeout in minutes; the Go code dereferences
`Spec.IdleShutdown` here without a nil check (the call site guarantees it
is set). -/
def specTimeoutMinutes (w : Workspace) : Int :=
  match w.spec.idleShutdown with
  | some is => is.timeoutMinutes
  | none => 0

/-- Embedding of `shouldStopDueToIdle`: false without a recorded last
activity; else stop exactly when the idle time strictly exceeds the
configured timeout. -/
def shouldStopDueToIdle (w : Workspace) (now : Int) : Bool :=
  match w.status.idleShutdown with
  | none => false
  | some st =>
    match st.lastActivity with
    | none => false
    | some la => decide (specTimeoutMinutes w * nsPerMinute < now - la)

/-- Embedding of `updateIdleStatusIfChanged` on the in-memory object:
records the parsed last activity, and always refreshes
LastChecked/Enabled/TimeoutMinutes for observability.  (The `needsUpdate`
flag only gates the cluster write, not the in-memory value; a failed
cluster write is logged by the caller and does not change control
flow.) -/
def updateIdleStatusIfChanged (w : Workspace) (now lastActivity : Int) : Workspace :=
  let st : IdleShutdownStatus :=
    { lastActivity := some lastActivity,
      lastChecked := some now,
      enabled := (match w.spec.idleShutdown with | some is => is.enabled | none => false),
      timeoutMinutes := specTimeoutMinutes w }
  { w with status := { w.status with idleShutdown := some st } }

/-- Embedding of `checkAndUpdateIdleStatus`: probe the idle endpoint; on
success fold the result into the status; on failure return the error with
the workspace untouched. -/
def checkAndUpdateIdleStatus (w : Workspace) (env : SMEnv) : Workspace × Option String :=
  match env.probeResult with
  | .error e => (w, some e)
  | .ok la => (updateIdleStatusIfChanged w env.now la, none)

/-- Embedding of `stopWorkspaceDueToIdle`: emit the IdleShutdown event,
flip `Spec.DesiredStatus` to Stopped in memory, persist the spec; on
persist failure requeue at the poll delay with the error, else requeue
immediately (delay 0). -/
def stopWorkspaceDueToIdle (w : Workspace) (env : SMEnv) : ReconcileOutcome :=
  let w2 := { w with spec := { w.spec with desiredStatus := "Stopped" } }
  let tr := [SMCall.emitEvent "Normal" "IdleShutdown"
      ("Stopping workspace due to idle timeout of " ++
        toString (specTimeoutMinutes w) ++ " minutes"),
    SMCall.specUpdate]
  match env.specUpdateErr with
  | some e =>
    { requeueAfter := PollRequeueDelay, error := some e, workspace := w2, trace := tr }
  | none => { requeueAfter := 0, error := none, workspace := w2, trace := tr }

/-- Embedding of `handleIdleShutdownForRunningWorkspace`: nothing to do
when idle shutdown is absent or disabled; on a due check tick, probe and
fold the result into the status (continuing on probe failure), then stop
on timeout or requeue at the idle-check interval. -/
def handleIdleShutdownForRunningWorkspace (w : Workspace) (env : SMEnv) : ReconcileOutcome :=
  match w.spec.idleShutdown with
  | none => { requeueAfter := 0, error := none, workspace := w, trace := [] }
  | some is =>
    if !is.enabled then { requeueAfter := 0, error := none, workspace := w, trace := [] }
    else
      if shouldCheckIdleNow w env.now then
        let cu := checkAndUpdateIdleStatus w env
        if shouldStopDueToIdle cu.1 env.now then
          let stop := stopWorkspaceDueToIdle cu.1 env
          { stop with trace := SMCall.idleProbe :: stop.trace }
        else
          { requeueAfter := IdleCheckInterval, error := none, workspace := cu.1,
            trace := [SMCall.idleProbe] }
      else
        { requeueAfter := IdleCheckInterval, error := none, workspace := w, trace := [] }

/-- Embedding of `reconcileDesiredRunningStatus`: validate the template
first; on continuation ensure PVC, Deployment and Service; when both are
ready provision access, emit the running event, set the Running status and
hand off to idle handling; otherwise record names and set Starting. -/
def reconcileDesiredRunningStatus (w : Workspace) (env : SMEnv) : ReconcileOutcome :=
  let tv := handleTemplateValidation w env
  if !tv.shouldContinue then
    { requeueAfter := PollRequeueDelay, error := tv.error, workspace := w, trace := tv.trace }
  else
    match env.pvcErr with
    | some e =>
      { requeueAfter := PollRequeueDelay,
        error := some ("failed to ensure PVC exists: " ++ e), workspace := w,
        trace := tv.trace ++ [SMCall.ensurePVC,
          SMCall.setStatus (.errorStatus "DeploymentError" ("failed to ensure PVC exists: " ++ e))] }
    | none =>
      match env.deploymentEnsureErr with
      | some e =>
        { requeueAfter := PollRequeueDelay,
          error := some ("failed to ensure deployment exists: " ++ e), workspace := w,
          trace := tv.trace ++ [SMCall.ensurePVC, SMCall.ensureDeployment,
            SMCall.setStatus (.errorStatus "DeploymentError"
              ("failed to ensure deployment exists: " ++ e))] }
      | none =>
        match env.serviceEnsureErr with
        | some e =>
          { requeueAfter := PollRequeueDelay,
            error := some ("failed to ensure service exists: " ++ e), workspace := w,
            trace := tv.trace ++ [SMCall.ensurePVC, SMCall.ensureDeployment, SMCall.ensureService,
              SMCall.setStatus (.errorStatus "ServiceError"
                ("failed to ensure service exists: " ++ e))] }
        | none =>
          let base := tv.trace ++ [SMCall.ensurePVC, SMCall.ensureDeployment, SMCall.ensureService]
          if env.deploymentAvailable && env.serviceAvailable then
            match env.accessRunningErr with
            | some e =>
              { requeueAfter := PollRequeueDelay, error := some e, workspace := w,
                trace := base ++ [SMCall.accessProvisionRequest] }
            | none =>
              let t2 := base ++ [SMCall.accessProvisionRequest,
                SMCall.emitEvent "Normal" "WorkspaceRunning" "Workspace is now running",
                SMCall.setStatus .running]
              match env.statusUpdateErr with
              | some e =>
                { requeueAfter := PollRequeueDelay, error := some e, workspace := w, trace := t2 }
              | none =>
                let idle := handleIdleShutdownForRunningWorkspace w env
                { idle with trace := t2 ++ idle.trace }
          else
            let w2 := { w with status := { w.status with
              deploymentName := env.deploymentName, serviceName := env.serviceName } }
            { requeueAfter := PollRequeueDelay, error := env.statusUpdateErr, workspace := w2,
              trace := base ++ [SMCall.setStatus
                (.starting env.deploymentAvailable env.serviceAvailable false)] }

/-- Embedding of `getDesiredStatus`: default when unset. -/
def getDesiredStatus (w : Workspace) : String :=
  if w.spec.desiredStatus = "" then DefaultDesiredStatus else w.spec.desiredStatus

/-- Embedding of `ReconcileDesiredState`: dispatch on the (defaulted)
desired status; unknown values write an Error status and requeue at the
long delay with an error. -/
def ReconcileDesiredState (w : Workspace) (env : SMEnv) : ReconcileOutcome :=
  let ds := getDesiredStatus w
  if ds = "Stopped" then reconcileDesiredStoppedStatus w env
  else if ds = "Running" then reconcileDesiredRunningStatus w env
  else
    { requeueAfter := LongRequeueDelay,
      error := some ("unknown desired status: " ++ ds), workspace := w,
      trace := [SMCall.setStatus (.errorStatus "DeploymentError"
        ("unknown desired status: " ++ ds))] }

/-- The last activity the stop decision sees after the probe-update step:
the probe result when the probe succeeded, else the recorded status
value. -/
def effectiveLastActivity (w : Workspace) (env : SMEnv) : Option Int :=
  match env.probeResult with
  | .ok la => some la
  | .error _ =>
    match w.status.idleShutdown with
    | some st => st.lastActivity
    | none => none

/-- Resource-mutating collaborator calls (creation or deletion requests
and spec writes), as opposed to reads, existence checks, events and the
status writes the Stopped path is expected to perform. -/
def isMutatingResourceCall : SMCall → Bool
  | .accessCleanupRequest => true
  | .deleteDeployment => true
  | .deleteService => true
  | .ensurePVC => true
  | .ensureDeployment => true
  | .ensureService => true
  | .specUpdate => true
  | _ => false

/-! ### Lemmas and claims about the status upsert (C8) -/

/-- Resources list for the C8 witness: one entry with the new resource's
key (same provider/type/podUid, older resource id) and one entry with a
different key. -/
def c8Existing : List ExternalAccessResourceStatus :=
  [{ resourceType := "SSMActivation", provider := "aws-ssm", resourceID := "act-old",
     metadata := some [("podUid", "uid-1")] },
   { resourceType := "SSMManagedInstance", provider := "aws-ssm", resourceID := "mi-1",
     metadata := some [("podUid", "uid-1")] }]

/-- The new resource for the C8 witness: replaces the activation entry. -/
def c8New : ExternalAccessResourceStatus :=
  { resourceType := "SSMActivation", provider := "aws-ssm", resourceID := "act-new",
    metadata := some [("podUid", "uid-1"), ("region", "us-west-2")] }

/-! ### Claims about the state machine (C1, C2, C3) -/

/-- An empty Workspace status. -/
def emptyWorkspaceStatus : WorkspaceStatus :=
  { deploymentName := "", serviceName := "", idleShutdown := none,
    externalAccessResources := [] }

/-- Workspace for the C1 scenario: DesiredStatus Running with a template
reference. -/
def c1Workspace : Workspace :=
  { name := "ws", namespaceName := "default",
    spec := { desiredStatus := "Running", templateRef := some "small-template",
              idleShutdown := none },
    status := emptyWorkspaceStatus }

/-- A baseline collaborator environment where every call succeeds. -/
def baseEnv : SMEnv :=
  { accessCleanupErr := none, deploymentEnsureDeletedErr := none,
    serviceEnsureDeletedErr := none,
    deploymentPresence := .absent, servicePresence := .absent,
    validation := .valid, pvcErr := none, deploymentEnsureErr := none,
    serviceEnsureErr := none,
    deploymentAvailable := true, serviceAvailable := true,
    accessRunningErr := none,
    deploymentName := "ws-deploy", serviceName := "ws-svc",
    statusUpdateErr := none,
    now := 0, probeResult := .error "probe unavailable", specUpdateErr := none }

/-- Environment for C1: template validation reports one policy
violation. -/
def c1Env : SMEnv := { baseEnv with validation := .invalid 1 }

/-- Workspace for the C2 witness: desired Stopped, nothing recorded. -/
def c2Workspace : Workspace :=
  { name := "ws", namespaceName := "default",
    spec := { desiredStatus := "Stopped", templateRef := none, idleShutdown := none },
    status := emptyWorkspaceStatus }

/-- Workspace for the C3 witness: idle shutdown enabled with a 5-minute
timeout and a recorded last activity at time 0. -/
def c3Workspace : Workspace :=
  { name := "ws", namespaceName := "default",
    spec := { desiredStatus := "Running", templateRef := none,
              idleShutdown := some { enabled := true, timeoutMinutes := 5 } },
    status := { deploymentName := "d", serviceName := "s",
                idleShutdown := some { lastActivity := some 0, lastChecked := none,
                                       enabled := true, timeoutMinutes := 5 },
                externalAccessResources := [] } }

/-- Environment for the C3 witness, idle case: now is 10 minutes after
the last activity. -/
def c3EnvIdle : SMEnv := { baseEnv with now := 10 * nsPerMinute }

/-- Environment for the C3 witness, active case: now is 4 minutes after
the last activity. -/
def c3EnvActive : SMEnv := { baseEnv with now := 4 * nsPerMinute }

/-! ## Theorems -/

theorem envLookup_setEnvVar_same (env : List EnvVar) (nv : EnvVar) :
    envLookup (setEnvVar env nv) nv.name = some nv.value := by
  induction env with
  | nil => simp [setEnvVar, envLookup]
  | cons e rest ih =>
    by_cases h : e.name = nv.name
    · simp [setEnvVar, envLookup, h]
    · simp [setEnvVar, envLookup, h, ih]

theorem envLookup_setEnvVar_other (env : List EnvVar) (nv : EnvVar) (n : String)
    (h : n ≠ nv.name) :
    envLookup (setEnvVar env nv) n = envLookup env n := by
  have hn : ¬ nv.name = n := fun hh => h hh.symm
  induction env with
  | nil => simp [setEnvVar, envLookup, hn]
  | cons e rest ih =>
    by_cases he : e.name = nv.name
    · have hen : ¬ e.name = n := by rw [he]; exact hn
      simp [setEnvVar, envLookup, he, hen, hn]
    · simp [setEnvVar, envLookup, he, ih]

theorem envLookup_foldl_setEnvVar_notmem (vs : List EnvVar) (n : String) :
    ∀ env : List EnvVar, (∀ v ∈ vs, v.name ≠ n) →
      envLookup (vs.foldl setEnvVar env) n = envLookup env n := by
  induction vs with
  | nil => intro env _; simp
  | cons v rest ih =>
    intro env h
    simp only [List.foldl_cons]
    rw [ih (setEnvVar env v) (fun x hx => h x (List.mem_cons_of_mem _ hx))]
    exact envLookup_setEnvVar_other env v n
      (fun hh => h v (List.mem_cons_self _ _) hh.symm)

theorem envLookup_foldl_setEnvVar_mem (vs : List EnvVar) (t : EnvVar) :
    ∀ env : List EnvVar, t ∈ vs → (vs.map EnvVar.name).Nodup →
      envLookup (vs.foldl setEnvVar env) t.name = some t.value := by
  induction vs with
  | nil => intro env hmem _; cases hmem
  | cons v rest ih =>
    intro env hmem hnd
    simp only [List.map_cons, List.nodup_cons, List.mem_map] at hnd
    rcases List.mem_cons.mp hmem with heq | hrest
    · subst heq
      simp only [List.foldl_cons]
      rw [envLookup_foldl_setEnvVar_notmem rest t.name (setEnvVar env t)
        (fun x hx hxe => hnd.1 ⟨x, hx, hxe⟩)]
      exact envLookup_setEnvVar_same env t
    · simp only [List.foldl_cons]
      exact ih (setEnvVar env v) hrest hnd.2

/-- Shape of `applyDeploymentSpecModifications` when the container list is
non-empty: declared volumes, primary-container mounts, and additional
containers are appended, and nothing else changes. -/
theorem applyDeploymentSpecModifications_cons (dv : List Volume) (a : AccessStrategy)
    (c0 : Container) (rest : List Container) :
    applyDeploymentSpecModifications ⟨dv, c0 :: rest⟩ a =
      .ok ⟨dv ++ modsVolumes a,
           { c0 with volumeMounts := c0.volumeMounts ++ modsMounts a }
             :: (rest ++ modsContainers a)⟩ := by
  unfold applyDeploymentSpecModifications modsVolumes modsMounts modsContainers
  rcases a.deploymentSpecModifications with _ | ⟨ps, pc⟩
  · simp
  · rcases ps with _ | ⟨vols, addc⟩ <;> rcases pc with _ | ⟨mnts⟩ <;>
      dsimp only <;> (try split_ifs) <;>
      simp_all [Nat.not_lt, Nat.le_zero, List.length_eq_zero]

/-- Claim C9: `ApplyAccessStrategyToDeployment` merges the resolved
access-strategy env vars into the first container — every strategy-declared
name afterwards carries the strategy's interpolated value (overwriting a
same-named existing variable, appending otherwise), variables not named by
the strategy keep their original values — while declared extra volumes,
primary-container volume mounts and additional containers are purely
appended, with no deduplication. -/
theorem C9_accessStrategy_merge_and_append (interp : String → String)
    (d : Deployment) (a : AccessStrategy) (c0 : Container) (rest : List Container)
    (hc : d.containers = c0 :: rest)
    (hnd : (a.mergeEnv.map EnvTemplate.name).Nodup) :
    ∃ p : Container,
      ApplyAccessStrategyToDeployment interp (some d) (some a) =
        .ok { volumes := d.volumes ++ modsVolumes a,
              containers := p :: (rest ++ modsContainers a) } ∧
      p.name = c0.name ∧
      p.volumeMounts = c0.volumeMounts ++ modsMounts a ∧
      (∀ t ∈ a.mergeEnv, envLookup p.env t.name = some (interp t.valueTemplate)) ∧
      (∀ n : String, (∀ t ∈ a.mergeEnv, t.name ≠ n) →
        envLookup p.env n = envLookup c0.env n) := by
  have hresolved_names :
      ((resolveAccessStrategyEnv interp a).map EnvVar.name).Nodup := by
    unfold resolveAccessStrategyEnv
    rw [List.map_map]
    exact hnd
  obtain ⟨dv, dc⟩ := d
  dsimp only at hc
  subst hc
  set c0m := addAccessStrategyEnvToContainer interp c0 a with hc0m
  refine ⟨{ c0m with volumeMounts := c0m.volumeMounts ++ modsMounts a }, ?_, ?_, ?_, ?_, ?_⟩
  · show applyDeploymentSpecModifications ⟨dv, c0m :: rest⟩ a = _
    rw [applyDeploymentSpecModifications_cons dv a c0m rest]
  · simp [hc0m, addAccessStrategyEnvToContainer]
  · rfl
  · intro t ht
    simp only [hc0m, addAccessStrategyEnvToContainer]
    exact envLookup_foldl_setEnvVar_mem _
      { name := t.name, value := interp t.valueTemplate } c0.env
      (List.mem_map_of_mem _ ht) hresolved_names
  · intro n hn
    simp only [hc0m, addAccessStrategyEnvToContainer]
    refine envLookup_foldl_setEnvVar_notmem _ n c0.env ?_
    intro v hv
    rcases List.mem_map.mp hv with ⟨t, ht, rfl⟩
    exact hn t ht

/-- Witness for C9 at the concrete input above. -/
theorem C9_accessStrategy_merge_and_append_witness :
    (∃ p : Container,
      ApplyAccessStrategyToDeployment (fun s => s ++ "!")
          (some c9Deployment) (some c9Strategy) =
        .ok { volumes := c9Deployment.volumes ++ modsVolumes c9Strategy,
              containers := p :: ([] ++ modsContainers c9Strategy) } ∧
      p.name = c9Primary.name ∧
      p.volumeMounts = c9Primary.volumeMounts ++ modsMounts c9Strategy ∧
      (∀ t ∈ c9Strategy.mergeEnv,
        envLookup p.env t.name = some (t.valueTemplate ++ "!")) ∧
      (∀ n : String, (∀ t ∈ c9Strategy.mergeEnv, t.name ≠ n) →
        envLookup p.env n = envLookup c9Primary.env n)) :=
  C9_accessStrategy_merge_and_append (fun s => s ++ "!")
    c9Deployment c9Strategy c9Primary [] rfl (by decide)

/-- Claim C10: interface contract of `ApplyAccessStrategyToDeployment` —
nil strategy is a no-op on any deployment; nil deployment with a strategy
returns an error and mutates nothing; and with both non-nil the call
panics exactly when the pod template has no container. -/
theorem C10_applyAccessStrategy_interface (interp : String → String) :
    (∀ d : Deployment,
      ApplyAccessStrategyToDeployment interp (some d) none = .ok d) ∧
    (∀ a : AccessStrategy,
      ApplyAccessStrategyToDeployment interp none (some a) =
        .err ("cannot apply AccessStrategy '" ++ a.name ++ "' to nil deployment")) ∧
    (∀ (d : Deployment) (a : AccessStrategy),
      (ApplyAccessStrategyToDeployment interp (some d) (some a) = .panicked ↔
        d.containers = [])) := by
  refine ⟨fun d => rfl, fun a => rfl, fun d a => ?_⟩
  obtain ⟨dv, dc⟩ := d
  rcases dc with _ | ⟨c0, rest⟩
  · exact ⟨fun _ => rfl, fun _ => rfl⟩
  · constructor
    · intro hp
      exfalso
      have heq := applyDeploymentSpecModifications_cons dv a
        (addAccessStrategyEnvToContainer interp c0 a) rest
      have hp2 : applyDeploymentSpecModifications
          ⟨dv, addAccessStrategyEnvToContainer interp c0 a :: rest⟩ a =
          ApplyResult.panicked := hp
      rw [heq] at hp2
      exact ApplyResult.noConfusion hp2
    · intro hcs
      exact absurd hcs (List.cons_ne_nil _ _)

/-- Witness for C10 at concrete inputs: all three interface cases at a
one-container deployment and at the empty-container deployment. -/
theorem C10_applyAccessStrategy_interface_witness :
    (ApplyAccessStrategyToDeployment id
        (some { volumes := [], containers := [{ name := "c", env := [], volumeMounts := [] }] }) none =
      .ok { volumes := [], containers := [{ name := "c", env := [], volumeMounts := [] }] }) ∧
    (ApplyAccessStrategyToDeployment id none
        (some { name := "s", mergeEnv := [], deploymentSpecModifications := none }) =
      .err "cannot apply AccessStrategy 's' to nil deployment") ∧
    (ApplyAccessStrategyToDeployment id
        (some { volumes := [], containers := [] })
        (some { name := "s", mergeEnv := [], deploymentSpecModifications := none }) = .panicked) := by
  refine ⟨(C10_applyAccessStrategy_interface id).1 _, ?_, ?_⟩
  · have h := (C10_applyAccessStrategy_interface id).2.1
      { name := "s", mergeEnv := [], deploymentSpecModifications := none }
    simpa using h
  · exact ((C10_applyAccessStrategy_interface id).2.2 _ _).mpr rfl

/-- Claim C4: the status-code policy of the idle probe.  For any probe
output that splits into `(body, code)`: code 000 yields the not-ready
(connection refused) error; 404 yields the wrong-path error; any other
non-200 code yields the generic unexpected-status error carrying the
response body; a 200 body parsing to a non-empty `lastActiveTimestamp`
returns that timestamp verbatim; a 200 body with an empty or missing
field yields the explicit validation error; and an exec failure is
likewise returned as an error.  `CheckWorkspaceIdle` is total: every
failure is a returned `Except.error`, never a panic. -/
theorem C4_idle_probe_status_code_policy (output body code : List Char)
    (hp : parseCurlOutput output = (body, code)) :
    (code = "000".data →
      CheckWorkspaceIdle (.ok output) = .error .connectionRefusedAppStarting) ∧
    (code = "404".data →
      CheckWorkspaceIdle (.ok output) = .error .endpointNotFoundWrongPath) ∧
    (code ≠ "000".data → code ≠ "404".data → code ≠ "200".data →
      CheckWorkspaceIdle (.ok output) = .error (.unexpectedStatus code body)) ∧
    (code = "200".data →
      listContainsSub "Connection refused".data body = false →
      listContainsSub "error".data body = false →
      (∀ ts : List Char, parseIdleJSON body = some ts → ts ≠ [] →
        CheckWorkspaceIdle (.ok output) = .ok ts) ∧
      (parseIdleJSON body = some [] →
        CheckWorkspaceIdle (.ok output) = .error .emptyLastActiveTimestamp)) ∧
    (∀ e : String,
      CheckWorkspaceIdle (.error e) = .error (.curlExecutionFailed e)) := by
  refine ⟨?_, ?_, ?_, ?_, fun e => rfl⟩
  · intro hc
    simp [CheckWorkspaceIdle, callIdleEndpoint, hp, hc]
  · intro hc
    have h000 : ¬ ("404".data = "000".data) := by decide
    simp [CheckWorkspaceIdle, callIdleEndpoint, hp, hc, h000]
  · intro h1 h2 h3
    simp [CheckWorkspaceIdle, callIdleEndpoint, hp, h1, h2, h3]
  · intro hc hcr herr
    have h000 : ¬ ("200".data = "000".data) := by decide
    have h404 : ¬ ("200".data = "404".data) := by decide
    constructor
    · intro ts hjson hne
      simp [CheckWorkspaceIdle, callIdleEndpoint, hp, hc, h000, h404, hcr, herr,
        hjson, hne]
    · intro hjson
      simp [CheckWorkspaceIdle, callIdleEndpoint, hp, hc, h000, h404, hcr, herr,
        hjson]

/-- Witness for C4 at concrete probe outputs: status 000, 404, 503, a 200
with a valid timestamp (returned verbatim), and a 200 with an empty
timestamp. -/
theorem C4_idle_probe_status_code_policy_witness :
    (CheckWorkspaceIdle (.ok (mkProbeOutput [] "000".data)) =
      .error .connectionRefusedAppStarting) ∧
    (CheckWorkspaceIdle (.ok (mkProbeOutput [] "404".data)) =
      .error .endpointNotFoundWrongPath) ∧
    (CheckWorkspaceIdle (.ok (mkProbeOutput "oops".data "503".data)) =
      .error (.unexpectedStatus "503".data "oops".data)) ∧
    (CheckWorkspaceIdle (.ok (mkProbeOutput c4GoodBody "200".data)) =
      .ok "2024-01-01T00:00:00Z".data) ∧
    (CheckWorkspaceIdle (.ok (mkProbeOutput c4EmptyBody "200".data)) =
      .error .emptyLastActiveTimestamp) := by
  refine ⟨?_, ?_, ?_, ?_, ?_⟩
  · exact (C4_idle_probe_status_code_policy (mkProbeOutput [] "000".data)
      [] "000".data (by decide)).1 rfl
  · exact (C4_idle_probe_status_code_policy (mkProbeOutput [] "404".data)
      [] "404".data (by decide)).2.1 rfl
  · exact (C4_idle_probe_status_code_policy (mkProbeOutput "oops".data "503".data)
      "oops".data "503".data (by decide)).2.2.1
      (by decide) (by decide) (by decide)
  · exact ((C4_idle_probe_status_code_policy (mkProbeOutput c4GoodBody "200".data)
      c4GoodBody "200".data (by decide)).2.2.2.1 rfl
      (by decide) (by decide)).1 "2024-01-01T00:00:00Z".data (by decide) (by decide)
  · exact ((C4_idle_probe_status_code_policy (mkProbeOutput c4EmptyBody "200".data)
      c4EmptyBody "200".data (by decide)).2.2.2.1 rfl
      (by decide) (by decide)).2 (by decide)

theorem cleanup_trace_mem (env : SSMEnv) :
    ∀ c ∈ (CleanupSSMManagedNodes env).2,
      c = SSMCall.cleanupManagedInstances ∨ c = SSMCall.cleanupActivations := by
  intro c hc
  unfold CleanupSSMManagedNodes at hc
  cases hav : env.ssmClientAvailable <;>
    rcases ha : env.cleanupActivationsErr with _ | e <;>
    simp [hav, ha] at hc <;> tauto

theorem createSSMActivation_trace_mem (env : SSMEnv) :
    ∀ c ∈ (createSSMActivation env).2, c = SSMCall.createActivation := by
  intro c hc
  unfold createSSMActivation at hc
  cases hav : env.ssmClientAvailable <;>
    rcases hi : env.iamRole with _ | r <;>
    rcases he : env.eksClusterARN with _ | arn <;>
    rcases hcr : env.createActivationResult with e | v <;>
    simp [hav, hi, he, hcr] at hc <;> exact hc

theorem setupSidecarAfterCleanup_no_cleanup (env : SSMEnv) :
    ∀ c ∈ (setupSidecarAfterCleanup env).2, isCleanupCall c = false := by
  intro c hc
  suffices h : c = SSMCall.createActivation ∨ c = .statusUpsert "SSMActivation" ∨
      c = .registrationScript ∨ c = .statusUpsert "SSMManagedInstance" ∨
      c = .markerFile by
    rcases h with rfl | rfl | rfl | rfl | rfl <;> rfl
  have htr : ∀ x ∈ (createSSMActivation env).2, x = SSMCall.createActivation :=
    createSSMActivation_trace_mem env
  unfold setupSidecarAfterCleanup at hc
  rcases hact : createSSMActivation env with ⟨r1, tr1⟩
  rw [hact] at hc htr
  dsimp only at hc htr
  rcases r1 with e | v
  · simp only at hc
    exact Or.inl (htr c hc)
  · simp only at hc
    rcases hreg : env.regScriptResult with e2 | out <;> rw [hreg] at hc <;> dsimp only at hc
    · simp only [List.mem_append, List.mem_singleton] at hc
      rcases hc with (hc | rfl) | rfl
      · exact Or.inl (htr c hc)
      · tauto
      · tauto
    · by_cases hid : env.extractedId = ""
      · rw [if_pos hid] at hc
        simp only [List.mem_append, List.mem_singleton] at hc
        rcases hc with (hc | rfl) | rfl
        · exact Or.inl (htr c hc)
        · tauto
        · tauto
      · rw [if_neg hid] at hc
        rcases hm : env.markerErr with _ | e3 <;> rw [hm] at hc <;>
          simp only [List.mem_append, List.mem_singleton] at hc <;>
          rcases hc with (((hc | rfl) | rfl) | rfl) | rfl <;>
          first
            | exact Or.inl (htr c hc)
            | tauto

theorem setupWorkspaceContainer_no_cleanup (env : SSMEnv) :
    ∀ c ∈ (setupWorkspaceContainer env).2, isCleanupCall c = false := by
  intro c hc
  unfold setupWorkspaceContainer at hc
  cases hw : env.workspaceRunning <;> rw [hw] at hc
  · simp at hc
  · rcases hs : env.serverStartErr with _ | e <;> rw [hs] at hc <;>
      simp at hc <;> subst hc <;> rfl

/-- Positional ordering from a split: if no call in the prefix is the
activation call and no call in the suffix is a cleanup call, then every
cleanup call's index is strictly below every activation call's index. -/
theorem cleanup_precedes_activation_of_split (l1 l2 : List SSMCall)
    (h1 : ∀ c ∈ l1, c ≠ SSMCall.createActivation)
    (h2 : ∀ c ∈ l2, isCleanupCall c = false) :
    ∀ i j c, (l1 ++ l2).get? i = some c → isCleanupCall c = true →
      (l1 ++ l2).get? j = some SSMCall.createActivation → i < j := by
  intro i j c hi hc hj
  have hi_lt : i < l1.length := by
    by_contra hge
    push_neg at hge
    rw [List.get?_append_right hge] at hi
    have hfalse := h2 c (List.get?_mem hi)
    rw [hc] at hfalse
    exact Bool.noConfusion hfalse
  have hj_ge : l1.length ≤ j := by
    by_contra hlt
    push_neg at hlt
    rw [List.get?_append hlt] at hj
    exact h1 _ (List.get?_mem hj) rfl
  exact lt_of_lt_of_le hi_lt hj_ge

/-- For a sidecar setup with cleanup, the trace splits as the read, the
in-progress write and the cleanup calls, followed by a cleanup-free
tail. -/
theorem setupFromDecision_trace_decomp (env : SSMEnv) (w : Bool) :
    ∃ l2 : List SSMCall,
      (setupFromDecision env true w true).2 =
        (SSMCall.readState :: SSMCall.writeState (inProgressState env) ::
          (CleanupSSMManagedNodes env).2) ++ l2 ∧
      ∀ c ∈ l2, isCleanupCall c = false := by
  refine ⟨(setupSidecarAfterCleanup env).2 ++
    ((match (setupSidecarAfterCleanup env).1 with
      | .ok _ => if w then setupWorkspaceContainer env else (.ok (), [])
      | .error _ => ((.ok (), []) : Except String Unit × List SSMCall)).2 ++
      [SSMCall.writeState (finalState env)]), ?_, ?_⟩
  · unfold setupFromDecision setupSidecarContainer
    dsimp only
    simp [List.append_assoc]
  · intro c hc
    simp only [List.mem_append, List.mem_singleton] at hc
    rcases hc with hc | hc | rfl
    · exact setupSidecarAfterCleanup_no_cleanup env c hc
    · rcases hr : (setupSidecarAfterCleanup env).1 with e | v <;> rw [hr] at hc
      · simp at hc
      · cases w
        · simp at hc
        · simp only [if_pos rfl] at hc
          exact setupWorkspaceContainer_no_cleanup env c hc
    · rfl

/-- Claim C5: with a readable registration state that either has
`setupInProgress` set or whose stored restart counts equal the pod's
current counts, `SetupContainers` returns nil and its external-call trace
is exactly the single state read — no state write, no cleanup, no
`CreateActivation`, no registration script, no server start. -/
theorem C5_setup_noop_when_in_progress_or_unchanged (env : SSMEnv)
    (st : RegistrationState)
    (havail : env.ssmClientAvailable = true)
    (hrun : env.sidecarRunning = true)
    (hread : env.readState = .valid st)
    (hcase : st.setupInProgress = true ∨
      (st.setupInProgress = false ∧
       st.sidecarRestartCount = env.currentSidecarRestarts ∧
       st.workspaceRestartCount = env.currentWorkspaceRestarts)) :
    SetupContainers env = (.ok (), [SSMCall.readState]) := by
  unfold SetupContainers
  rw [havail, hrun, hread]
  rcases hcase with hin | ⟨hin, hs, hw⟩
  · simp [hin]
  · simp [hin, hs, hw]

/-- Witness for C5 at both concrete scenarios from the spec. -/
theorem C5_setup_noop_when_in_progress_or_unchanged_witness :
    SetupContainers c5EnvInProgress = (.ok (), [SSMCall.readState]) ∧
    SetupContainers c5EnvUnchanged = (.ok (), [SSMCall.readState]) :=
  ⟨C5_setup_noop_when_in_progress_or_unchanged c5EnvInProgress
      { sidecarRestartCount := 2, workspaceRestartCount := 1, setupInProgress := true }
      rfl rfl rfl (Or.inl rfl),
   C5_setup_noop_when_in_progress_or_unchanged c5EnvUnchanged
      { sidecarRestartCount := 2, workspaceRestartCount := 1, setupInProgress := false }
      rfl rfl rfl (Or.inr ⟨rfl, rfl, rfl⟩)⟩

/-- Claim C6: when a sidecar restart is detected against a readable,
not-in-progress state (current sidecar restart count strictly above the
stored one), every cleanup call in the trace of `SetupContainers` occurs
strictly before every `CreateActivation` call. -/
theorem C6_sidecar_restart_cleanup_before_activation (env : SSMEnv)
    (st : RegistrationState)
    (hread : env.readState = .valid st)
    (hnp : st.setupInProgress = false)
    (hrs : st.sidecarRestartCount < env.currentSidecarRestarts) :
    ∀ i j c, (SetupContainers env).2.get? i = some c → isCleanupCall c = true →
      (SetupContainers env).2.get? j = some SSMCall.createActivation → i < j := by
  cases hav : env.ssmClientAvailable
  · intro i j c hi _ _
    unfold SetupContainers at hi
    rw [hav] at hi
    simp at hi
  · cases hrun : env.sidecarRunning
    · intro i j c hi _ _
      unfold SetupContainers at hi
      rw [hav, hrun] at hi
      simp at hi
    · have hset : SetupContainers env =
          setupFromDecision env true
            (decide (st.workspaceRestartCount < env.currentWorkspaceRestarts)) true := by
        unfold SetupContainers
        rw [hav, hrun, hread]
        simp [hnp, hrs]
      rw [hset]
      obtain ⟨l2, hdec, hl2⟩ := setupFromDecision_trace_decomp env
        (decide (st.workspaceRestartCount < env.currentWorkspaceRestarts))
      rw [hdec]
      refine cleanup_precedes_activation_of_split _ l2 ?_ hl2
      intro c hc
      rcases List.mem_cons.mp hc with rfl | hc
      · simp
      · rcases List.mem_cons.mp hc with rfl | hc
        · simp
        · rcases cleanup_trace_mem env c hc with rfl | rfl <;> simp

/-- Witness for C6: in the concrete restart trace the activation-cleanup
call sits at index 3, the `CreateActivation` call at index 4, whence the
ordering 3 < 4. -/
theorem C6_sidecar_restart_cleanup_before_activation_witness :
    (SetupContainers c6Env).2.get? 3 = some SSMCall.cleanupActivations ∧
    (SetupContainers c6Env).2.get? 4 = some SSMCall.createActivation ∧
    3 < 4 :=
  ⟨by decide, by decide,
   C6_sidecar_restart_cleanup_before_activation c6Env
      { sidecarRestartCount := 1, workspaceRestartCount := 0, setupInProgress := false }
      rfl rfl (by decide) 3 4 SSMCall.cleanupActivations
      (by decide) rfl (by decide)⟩

/-- Claim C7: `CleanupSSMManagedNodes` (with a client) always makes both
cleanup calls, in order — the activation cleanup is attempted even when
the instance cleanup failed, and the result is independent of the
instance-cleanup outcome — and returns an error exactly when activation
cleanup fails. -/
theorem C7_cleanup_attempts_both_error_iff_activation (env : SSMEnv)
    (h : env.ssmClientAvailable = true) :
    (CleanupSSMManagedNodes env).2 =
      [SSMCall.cleanupManagedInstances, SSMCall.cleanupActivations] ∧
    ((CleanupSSMManagedNodes env).1 = .ok () ↔ env.cleanupActivationsErr = none) ∧
    (∀ e, env.cleanupActivationsErr = some e →
      (CleanupSSMManagedNodes env).1 =
        .error ("failed to cleanup activations for pod " ++ env.podUID ++ ": " ++ e)) ∧
    (∀ x, CleanupSSMManagedNodes { env with cleanupInstancesErr := x } =
      CleanupSSMManagedNodes env) := by
  rcases ha : env.cleanupActivationsErr with _ | e <;>
    refine ⟨?_, ?_, ?_, ?_⟩ <;>
    simp [CleanupSSMManagedNodes, h, ha]

/-- Witness for C7: despite the failing instance cleanup, both calls are
made and the overall result is nil. -/
theorem C7_cleanup_attempts_both_error_iff_activation_witness :
    (CleanupSSMManagedNodes c7Env).2 =
      [SSMCall.cleanupManagedInstances, SSMCall.cleanupActivations] ∧
    (CleanupSSMManagedNodes c7Env).1 = .ok () :=
  ⟨(C7_cleanup_attempts_both_error_iff_activation c7Env rfl).1,
   ((C7_cleanup_attempts_both_error_iff_activation c7Env rfl).2.1).mpr rfl⟩

theorem resourceMatches_iff_key (nr r : ExternalAccessResourceStatus)
    (hprov : nr.provider = "aws-ssm") (huid : metaGet nr "podUid" ≠ "") :
    (resourceMatches r nr.resourceType (metaGet nr "podUid") = true ↔
      resourceKey r = resourceKey nr) := by
  unfold resourceMatches resourceKey
  constructor
  · intro h
    simp only [Bool.and_eq_true, decide_eq_true_eq] at h
    obtain ⟨⟨⟨hp, ht⟩, _⟩, hu⟩ := h
    simp [hp, ht, hu, hprov]
  · intro h
    simp only [Prod.mk.injEq] at h
    obtain ⟨hp, ht, hu⟩ := h
    have hm : r.metadata.isSome := by
      rcases hmm : r.metadata with _ | m
      · exfalso
        apply huid
        rw [← hu]
        simp [metaGet, hmm]
      · simp
    simp only [Bool.and_eq_true, decide_eq_true_eq]
    exact ⟨⟨⟨hp.trans hprov, ht⟩, hm⟩, hu⟩

/-- Claim C8: one `addResourceToStatus` mutation, applied to the
re-fetched resource list, is an upsert keyed by (Provider, ResourceType,
podUid-in-metadata): afterwards exactly one entry — the new resource —
carries the new resource's key, entries with any other key are unchanged
(in content and order), no entry is removed, and the length grows by at
most one.  Hypotheses record what holds at both call sites: the new
resource's provider is "aws-ssm", its metadata carries a non-empty
`podUid`, and the fetched list holds at most one entry with the key (the
invariant this upsert itself maintains). -/
theorem C8_addResourceToStatus_upsert (resources : List ExternalAccessResourceStatus)
    (nr : ExternalAccessResourceStatus)
    (hprov : nr.provider = "aws-ssm")
    (huid : metaGet nr "podUid" ≠ "")
    (huniq : (resources.filter
      (fun r => decide (resourceKey r = resourceKey nr))).length ≤ 1) :
    (addResourceToStatus resources nr).filter
        (fun r => decide (resourceKey r = resourceKey nr)) = [nr] ∧
    (addResourceToStatus resources nr).filter
        (fun r => !decide (resourceKey r = resourceKey nr)) =
      resources.filter (fun r => !decide (resourceKey r = resourceKey nr)) ∧
    resources.length ≤ (addResourceToStatus resources nr).length ∧
    (addResourceToStatus resources nr).length ≤ resources.length + 1 := by
  unfold addResourceToStatus
  induction resources with
  | nil =>
    refine ⟨?_, ?_, ?_, ?_⟩ <;> simp [upsertExternalResource]
  | cons r rest ih =>
    by_cases hm : resourceMatches r nr.resourceType (metaGet nr "podUid") = true
    · have hk : resourceKey r = resourceKey nr :=
        (resourceMatches_iff_key nr r hprov huid).mp hm
      have hout : upsertExternalResource (r :: rest) nr (metaGet nr "podUid") = nr :: rest := by
        simp [upsertExternalResource, hm]
      have hrest : rest.filter (fun x => decide (resourceKey x = resourceKey nr)) = [] := by
        have : (List.filter (fun x => decide (resourceKey x = resourceKey nr)) (r :: rest)).length
            = (rest.filter (fun x => decide (resourceKey x = resourceKey nr))).length + 1 := by
          simp [List.filter_cons, hk]
        rw [this] at huniq
        exact List.length_eq_zero.mp (Nat.le_zero.mp (Nat.le_of_succ_le_succ huniq))
      rw [hout]
      refine ⟨?_, ?_, ?_, ?_⟩
      · simp [List.filter_cons, hrest]
      · simp [List.filter_cons, hk]
      · simp
      · simp [Nat.le_succ]
    · have hk : ¬ resourceKey r = resourceKey nr :=
        fun h => hm ((resourceMatches_iff_key nr r hprov huid).mpr h)
      have hout : upsertExternalResource (r :: rest) nr (metaGet nr "podUid") =
          r :: upsertExternalResource rest nr (metaGet nr "podUid") := by
        simp [upsertExternalResource, hm]
      have huniq2 : (rest.filter
          (fun x => decide (resourceKey x = resourceKey nr))).length ≤ 1 := by
        have : List.filter (fun x => decide (resourceKey x = resourceKey nr)) (r :: rest)
            = rest.filter (fun x => decide (resourceKey x = resourceKey nr)) := by
          simp [List.filter_cons, hk]
        rwa [this] at huniq
      obtain ⟨ia, ib, ic, id'⟩ := ih huniq2
      rw [hout]
      refine ⟨?_, ?_, ?_, ?_⟩
      · rw [List.filter_cons_of_neg (by simp [hk])]
        exact ia
      · rw [List.filter_cons_of_pos (by simp [hk]), List.filter_cons_of_pos (by simp [hk])]
        rw [ib]
      · simpa using Nat.succ_le_succ ic
      · simpa using Nat.succ_le_succ id'

/-- Witness for C8 at the concrete input above. -/
theorem C8_addResourceToStatus_upsert_witness :
    (addResourceToStatus c8Existing c8New).filter
        (fun r => decide (resourceKey r = resourceKey c8New)) = [c8New] ∧
    (addResourceToStatus c8Existing c8New).filter
        (fun r => !decide (resourceKey r = resourceKey c8New)) =
      c8Existing.filter (fun r => !decide (resourceKey r = resourceKey c8New)) ∧
    c8Existing.length ≤ (addResourceToStatus c8Existing c8New).length ∧
    (addResourceToStatus c8Existing c8New).length ≤ c8Existing.length + 1 :=
  C8_addResourceToStatus_upsert c8Existing c8New rfl (by decide) (by decide)

/-- Counterexample for C1 as stated: on a policy violation the reconcile
returns `ctrl.Result\x7bRequeueAfter: PollRequeueDelay\x7d` with a nil
error — a further (delayed) requeue this cycle, not the claimed absence
of one. -/
theorem C1_counterexample_policy_violation_requeues :
    (ReconcileDesiredState c1Workspace c1Env).requeueAfter = PollRequeueDelay ∧
    (ReconcileDesiredState c1Workspace c1Env).error = none ∧
    PollRequeueDelay ≠ 0 := by
  refine ⟨rfl, rfl, by decide⟩

/-- Claim C1 (amended): for a Running workspace whose template validation
reports a policy violation, the reconcile sets the Invalid status, emits
the warning event carrying the violation count, returns a nil error,
makes zero PVC/Deployment/Service creation calls — and requeues after
`PollRequeueDelay` (rather than not requeuing). -/
theorem C1_policy_violation_marks_invalid (w : Workspace) (env : SMEnv)
    (templateName : String) (n : Nat)
    (hds : getDesiredStatus w = "Running")
    (ht : w.spec.templateRef = some templateName)
    (hv : env.validation = .invalid n) :
    (ReconcileDesiredState w env).error = none ∧
    (ReconcileDesiredState w env).requeueAfter = PollRequeueDelay ∧
    (ReconcileDesiredState w env).trace =
      [SMCall.validateTemplate,
       SMCall.emitEvent "Warning" "ValidationFailed"
         ("Validation failed for " ++ templateName ++ " with " ++ toString n ++ " violations"),
       SMCall.setStatus (.invalid n)] ∧
    SMCall.ensurePVC ∉ (ReconcileDesiredState w env).trace ∧
    SMCall.ensureDeployment ∉ (ReconcileDesiredState w env).trace ∧
    SMCall.ensureService ∉ (ReconcileDesiredState w env).trace := by
  have hval : handleTemplateValidation w env =
      { shouldContinue := false, error := none,
        trace := [SMCall.validateTemplate,
          SMCall.emitEvent "Warning" "ValidationFailed"
            ("Validation failed for " ++ templateName ++ " with " ++ toString n ++ " violations"),
          SMCall.setStatus (.invalid n)] } := by
    unfold handleTemplateValidation
    rw [ht, hv]
  have hrun : reconcileDesiredRunningStatus w env =
      { requeueAfter := PollRequeueDelay, error := none, workspace := w,
        trace := [SMCall.validateTemplate,
          SMCall.emitEvent "Warning" "ValidationFailed"
            ("Validation failed for " ++ templateName ++ " with " ++ toString n ++ " violations"),
          SMCall.setStatus (.invalid n)] } := by
    unfold reconcileDesiredRunningStatus
    rw [hval]
    rfl
  have hrds : ReconcileDesiredState w env = reconcileDesiredRunningStatus w env := by
    unfold ReconcileDesiredState
    rw [hds]
    rfl
  rw [hrds, hrun]
  refine ⟨rfl, rfl, rfl, ?_, ?_, ?_⟩ <;> simp

/-- Witness for C1 (amended) at the concrete scenario. -/
theorem C1_policy_violation_marks_invalid_witness :
    (ReconcileDesiredState c1Workspace c1Env).error = none ∧
    (ReconcileDesiredState c1Workspace c1Env).requeueAfter = PollRequeueDelay ∧
    (ReconcileDesiredState c1Workspace c1Env).trace =
      [SMCall.validateTemplate,
       SMCall.emitEvent "Warning" "ValidationFailed"
         ("Validation failed for " ++ "small-template" ++ " with " ++ toString 1 ++ " violations"),
       SMCall.setStatus (.invalid 1)] ∧
    SMCall.ensurePVC ∉ (ReconcileDesiredState c1Workspace c1Env).trace ∧
    SMCall.ensureDeployment ∉ (ReconcileDesiredState c1Workspace c1Env).trace ∧
    SMCall.ensureService ∉ (ReconcileDesiredState c1Workspace c1Env).trace :=
  C1_policy_violation_marks_invalid c1Workspace c1Env "small-template" 1 rfl rfl rfl

/-- Claim C2: with both deletion checks true, no recorded access
resources (so their cleanup made no request and reported no error), and a
successful status write, the Stopped path emits the WorkspaceStopped
event, writes the Stopped status, returns a nil error with no requeue,
and its whole trace consists of the two existence checks plus that event
and status write — no mutating resource call. -/
theorem C2_stopped_terminal_and_idempotent (w : Workspace) (env : SMEnv)
    (hgone : w.status.externalAccessResources = [])
    (hde : env.deploymentEnsureDeletedErr = none)
    (hse : env.serviceEnsureDeletedErr = none)
    (hd : IsMissingOrDeleting env.deploymentPresence = true)
    (hs : IsMissingOrDeleting env.servicePresence = true)
    (hsu : env.statusUpdateErr = none) :
    (reconcileDesiredStoppedStatus w env).error = none ∧
    (reconcileDesiredStoppedStatus w env).requeueAfter = 0 ∧
    (reconcileDesiredStoppedStatus w env).trace =
      [SMCall.getDeployment, SMCall.getService,
       SMCall.emitEvent "Normal" "WorkspaceStopped" "Workspace has been stopped",
       SMCall.setStatus .stopped] ∧
    (∀ c ∈ (reconcileDesiredStoppedStatus w env).trace,
      isMutatingResourceCall c = false) := by
  have hmain : reconcileDesiredStoppedStatus w env =
      { requeueAfter := 0, error := none, workspace := w,
        trace := [SMCall.getDeployment, SMCall.getService,
          SMCall.emitEvent "Normal" "WorkspaceStopped" "Workspace has been stopped",
          SMCall.setStatus .stopped] } := by
    unfold reconcileDesiredStoppedStatus ensureDeploymentDeleted ensureServiceDeleted
      reconcileAccessForDesiredStoppedStatus AreAccessResourcesDeleted
    rw [hgone, hde, hse, hsu]
    rcases hp : env.deploymentPresence <;> rcases hq : env.servicePresence <;>
      simp_all [IsMissingOrDeleting]
  rw [hmain]
  refine ⟨rfl, rfl, rfl, ?_⟩
  intro c hc
  simp only [List.mem_cons, List.not_mem_nil, or_false] at hc
  rcases hc with rfl | rfl | rfl | rfl <;> rfl

/-- Witness for C2 at the concrete scenario (both resources already
absent). -/
theorem C2_stopped_terminal_and_idempotent_witness :
    (reconcileDesiredStoppedStatus c2Workspace baseEnv).error = none ∧
    (reconcileDesiredStoppedStatus c2Workspace baseEnv).requeueAfter = 0 ∧
    (reconcileDesiredStoppedStatus c2Workspace baseEnv).trace =
      [SMCall.getDeployment, SMCall.getService,
       SMCall.emitEvent "Normal" "WorkspaceStopped" "Workspace has been stopped",
       SMCall.setStatus .stopped] :=
  ⟨(C2_stopped_terminal_and_idempotent c2Workspace baseEnv rfl rfl rfl rfl rfl rfl).1,
   (C2_stopped_terminal_and_idempotent c2Workspace baseEnv rfl rfl rfl rfl rfl rfl).2.1,
   (C2_stopped_terminal_and_idempotent c2Workspace baseEnv rfl rfl rfl rfl rfl rfl).2.2.1⟩

/-- Claim C3: on a due idle-check tick of an enabled workspace with an
effective recorded last activity, the reconcile decides to stop exactly
when the idle time strictly exceeds the configured timeout; when stopping
it flips `Spec.DesiredStatus` to Stopped, persists the spec, emits the
IdleShutdown event and requeues immediately (delay 0); otherwise it
leaves the spec unchanged and requeues after `IdleCheckInterval`. -/
theorem C3_idle_stop_exactly_on_timeout (w : Workspace) (env : SMEnv)
    (is : IdleShutdownSpec) (la : Int)
    (hspec : w.spec.idleShutdown = some is)
    (hen : is.enabled = true)
    (hchk : shouldCheckIdleNow w env.now = true)
    (hla : effectiveLastActivity w env = some la)
    (hupd : env.specUpdateErr = none) :
    (is.timeoutMinutes * nsPerMinute < env.now - la →
      (handleIdleShutdownForRunningWorkspace w env).workspace.spec.desiredStatus = "Stopped" ∧
      (handleIdleShutdownForRunningWorkspace w env).trace =
        [SMCall.idleProbe,
         SMCall.emitEvent "Normal" "IdleShutdown"
           ("Stopping workspace due to idle timeout of " ++
             toString is.timeoutMinutes ++ " minutes"),
         SMCall.specUpdate] ∧
      (handleIdleShutdownForRunningWorkspace w env).requeueAfter = 0 ∧
      (handleIdleShutdownForRunningWorkspace w env).error = none) ∧
    (¬ (is.timeoutMinutes * nsPerMinute < env.now - la) →
      (handleIdleShutdownForRunningWorkspace w env).workspace.spec = w.spec ∧
      (handleIdleShutdownForRunningWorkspace w env).requeueAfter = IdleCheckInterval ∧
      (handleIdleShutdownForRunningWorkspace w env).error = none) := by
  have hcu : (checkAndUpdateIdleStatus w env).1.spec = w.spec := by
    unfold checkAndUpdateIdleStatus updateIdleStatusIfChanged
    rcases env.probeResult with e | p <;> rfl
  have htm : specTimeoutMinutes (checkAndUpdateIdleStatus w env).1 = is.timeoutMinutes := by
    unfold specTimeoutMinutes
    rw [hcu, hspec]
  have hstop : shouldStopDueToIdle (checkAndUpdateIdleStatus w env).1 env.now =
      decide (is.timeoutMinutes * nsPerMinute < env.now - la) := by
    unfold effectiveLastActivity at hla
    rcases hpr : env.probeResult with e | p
    · have hcu1 : (checkAndUpdateIdleStatus w env).1 = w := by
        unfold checkAndUpdateIdleStatus
        rw [hpr]
      rw [hpr] at hla
      rw [hcu1]
      rcases hst : w.status.idleShutdown with _ | st <;> rw [hst] at hla
      · simp at hla
      · simp only at hla
        unfold shouldStopDueToIdle
        rw [hst]
        simp only [hla]
        rw [show specTimeoutMinutes w = is.timeoutMinutes from by
          unfold specTimeoutMinutes; rw [hspec]]
    · have hcu1 : (checkAndUpdateIdleStatus w env).1 = updateIdleStatusIfChanged w env.now p := by
        unfold checkAndUpdateIdleStatus
        rw [hpr]
      rw [hpr] at hla
      simp only [Option.some.injEq] at hla
      subst hla
      rw [hcu1] at htm ⊢
      have hst : (updateIdleStatusIfChanged w env.now p).status.idleShutdown =
          some ⟨some p, some env.now,
            (match w.spec.idleShutdown with | some i => i.enabled | none => false),
            specTimeoutMinutes w⟩ := rfl
      unfold shouldStopDueToIdle
      rw [hst]
      simp only
      rw [htm]
  have hmain : handleIdleShutdownForRunningWorkspace w env =
      (if shouldStopDueToIdle (checkAndUpdateIdleStatus w env).1 env.now then
        { stopWorkspaceDueToIdle (checkAndUpdateIdleStatus w env).1 env with
          trace := SMCall.idleProbe :: (stopWorkspaceDueToIdle (checkAndUpdateIdleStatus w env).1 env).trace }
      else
        { requeueAfter := IdleCheckInterval, error := none,
          workspace := (checkAndUpdateIdleStatus w env).1,
          trace := [SMCall.idleProbe] }) := by
    unfold handleIdleShutdownForRunningWorkspace
    rw [hspec]
    simp only [hen, Bool.not_true, Bool.false_eq_true, if_false, hchk, if_true]
  constructor
  · intro hlt
    have hb : shouldStopDueToIdle (checkAndUpdateIdleStatus w env).1 env.now = true := by
      rw [hstop]; exact decide_eq_true hlt
    rw [hmain, if_pos hb]
    unfold stopWorkspaceDueToIdle
    rw [hupd, htm]
    refine ⟨?_, rfl, rfl, rfl⟩
    simp [hcu]
  · intro hge
    have hb : shouldStopDueToIdle (checkAndUpdateIdleStatus w env).1 env.now = false := by
      rw [hstop]; exact decide_eq_false hge
    rw [hmain, if_neg (by rw [hb]; exact Bool.false_ne_true)]
    exact ⟨hcu, rfl, rfl⟩

/-- Witness for C3: last activity 10 minutes ago with a 5-minute timeout
stops the workspace (immediate requeue); 4 minutes ago does not (spec
unchanged, idle-interval requeue). -/
theorem C3_idle_stop_exactly_on_timeout_witness :
    (handleIdleShutdownForRunningWorkspace c3Workspace c3EnvIdle).workspace.spec.desiredStatus = "Stopped" ∧
    (handleIdleShutdownForRunningWorkspace c3Workspace c3EnvIdle).requeueAfter = 0 ∧
    (handleIdleShutdownForRunningWorkspace c3Workspace c3EnvActive).workspace.spec = c3Workspace.spec ∧
    (handleIdleShutdownForRunningWorkspace c3Workspace c3EnvActive).requeueAfter = IdleCheckInterval := by
  have h1 := C3_idle_stop_exactly_on_timeout c3Workspace c3EnvIdle
    { enabled := true, timeoutMinutes := 5 } 0 rfl rfl (by decide) (by decide) rfl
  have h2 := C3_idle_stop_exactly_on_timeout c3Workspace c3EnvActive
    { enabled := true, timeoutMinutes := 5 } 0 rfl rfl (by decide) (by decide) rfl
  exact ⟨(h1.1 (by decide)).1, (h1.1 (by decide)).2.2.1,
         (h2.2 (by decide)).1, (h2.2 (by decide)).2.1⟩

end JupyterK8s
